import Mathlib

/-!
Verification of the audio-channel analyzer pipeline (`audio_analyzer.py`).

The development shallowly embeds the concurrency-free core of the program:
the channel classifier (`AudioAnalysisWorker.analyze_audio`, the branch on
`channels` at lines 83-102), the worker body (`AudioAnalysisWorker.run`),
the progress ratchet (`AudioAnalyzerApp.update_progress`), the result
collector (`AudioAnalyzerApp.handle_result`) and the batch-submission guard
(`AudioAnalyzerApp.analyze_audio_files`).  Machine floats of the source are
modelled as exact rationals; the Pearson coefficient comparison is expressed
without square roots (see `corrExceeds`) and related to the textbook
real-valued formulation (`pearsonGT`) by `corrExceeds_iff_pearsonGT`.
Qt signal emissions are modelled as the optional payloads a worker run
produces; slot execution on the GUI thread is modelled as a fold of the
(serialized) slot functions over the delivered payloads.
-/

namespace AudioAnalyzer

/-- The audio-type labels the classifier can produce.  The source uses
Chinese display strings; each constructor corresponds to one of them:
`mono` = "单声道", `stereo` = "立体声", `fakeStereo` = "假立体声",
`surround51` = "5.1环绕声", `surround71` = "7.1环绕声",
`nChannel n` = "{n}声道" (interpolated), `unknown` = "未知" (the initial
value of `audio_type`, overwritten on every branch), and
`analysisError` = "分析错误" (set only by the error handler in `run`). -/
inductive AudioType
  | mono
  | stereo
  | fakeStereo
  | surround51
  | surround71
  | nChannel (n : Nat)
  | unknown
  | analysisError
  deriving DecidableEq

/-- The decoded sample data `y` returned by `librosa.load(path, mono=False)`:
either a one-dimensional array (`y.ndim == 1`, mono content) or a
two-dimensional array whose two rows are the left and right channel buffers
(the `channels == 2` path only ever reads `y[0]` and `y[1]`). -/
inductive DecodedSamples
  | oneD (samples : List ℚ)
  | twoD (left right : List ℚ)
  deriving DecidableEq

/-- Sum of the pairwise products of the zipped channels, `Σ xᵢ·yᵢ`. -/
def sumProd (a b : List ℚ) : ℚ :=
  ((a.zip b).map fun q => q.1 * q.2).sum

/-- Sum of the first channel, restricted to the common length. -/
def sumFst (a b : List ℚ) : ℚ :=
  ((a.zip b).map Prod.fst).sum

/-- Sum of the second channel, restricted to the common length. -/
def sumSnd (a b : List ℚ) : ℚ :=
  ((a.zip b).map Prod.snd).sum

/-- Common sample count of the two channels (`librosa` returns a rectangular
2-D array, so for the source's inputs both rows have this length). -/
def sampleCount (a b : List ℚ) : Nat :=
  (a.zip b).length

/-- Scaled covariance `n·Σxy − Σx·Σy`: the covariance of the two channels scaled by `n²`.
Numerator of the Pearson coefficient in its sum form. -/
def covN (a b : List ℚ) : ℚ :=
  (sampleCount a b : ℚ) * sumProd a b - sumFst a b * sumSnd a b

/-- Scaled variance `n·Σx² − (Σx)²` of the first channel (times `n²`). -/
def varFstN (a b : List ℚ) : ℚ :=
  (sampleCount a b : ℚ) * (((a.zip b).map fun q => q.1 * q.1).sum)
    - sumFst a b ^ 2

/-- Scaled variance `n·Σy² − (Σy)²` of the second channel (times `n²`). -/
def varSndN (a b : List ℚ) : ℚ :=
  (sampleCount a b : ℚ) * (((a.zip b).map fun q => q.2 * q.2).sum)
    - sumSnd a b ^ 2

/-- The source's test `np.corrcoef(y[0], y[1])[0, 1] > 0.98` (line 90-91),
expressed over exact rationals and without square roots: for a threshold
`t > 0`, the Pearson coefficient `covN / sqrt (varFstN · varSndN)` exceeds
`t` iff both variances are positive (otherwise the coefficient is NaN in
NumPy and the float comparison is False), the covariance is positive, and
`covN² > t²·varFstN·varSndN`.  `corrExceeds_iff_pearsonGT` below proves this
equivalence against the real-valued formula. -/
def corrExceeds (a b : List ℚ) (t : ℚ) : Bool :=
  decide (0 < varFstN a b ∧ 0 < varSndN a b ∧ 0 < covN a b ∧
    t ^ 2 * (varFstN a b * varSndN a b) < covN a b ^ 2)

/-- Spec-side formulation of the classifier's similarity test, following the
spec's words: the Pearson correlation coefficient between the two channel
sample sequences is defined (both channel variances positive) and exceeds
`t`.  The coefficient is the textbook `Σ(x−x̄)(y−ȳ) / (σₓ·σ_y)` quantity,
which in the `n²`-scaled sums equals `covN / √(varFstN·varSndN)`. -/
def pearsonGT (a b : List ℚ) (t : ℚ) : Prop :=
  0 < varFstN a b ∧ 0 < varSndN a b ∧
    (t : ℝ) < (covN a b : ℝ) /
      Real.sqrt ((varFstN a b : ℝ) * (varSndN a b : ℝ))

/-- The channel-type classification of `AudioAnalysisWorker.analyze_audio`
(lines 83-102): `channels == 1` → mono; `channels == 2` → fake stereo or
stereo by the correlation test when `y` is two-dimensional, mono otherwise
(librosa already collapsed the data); `channels == 6` → 5.1 surround;
`channels == 8` → 7.1 surround; any other count → the generic n-channel
label. -/
def classify (channels : Nat) (y : DecodedSamples) : AudioType :=
  if channels = 1 then .mono
  else if channels = 2 then
    match y with
    | .twoD left right =>
        if corrExceeds left right (0.98 : ℚ) then .fakeStereo else .stereo
    | .oneD _ => .mono
  else if channels = 6 then .surround51
  else if channels = 8 then .surround71
  else .nChannel channels

example : classify 1 (.oneD [1, 2]) = .mono := by simp [classify]
example : classify 6 (.oneD []) = .surround51 := by simp [classify]
example : classify 8 (.oneD []) = .surround71 := by simp [classify]
example : classify 5 (.oneD []) = .nChannel 5 := by simp [classify]
example : classify 2 (.twoD [0, 1, 2] [0, 1, 2]) = .fakeStereo := by
  norm_num [classify, corrExceeds, varFstN, varSndN, covN, sumProd, sumFst,
    sumSnd, sampleCount, List.zip_cons_cons]
example : classify 2 (.twoD [0, 1, 2] [2, 1, 0]) = .stereo := by
  norm_num [classify, corrExceeds, varFstN, varSndN, covN, sumProd, sumFst,
    sumSnd, sampleCount, List.zip_cons_cons]
example : classify 2 (.twoD [0, 0, 0] [0, 0, 0]) = .stereo := by
  norm_num [classify, corrExceeds, varFstN, varSndN, covN, sumProd, sumFst,
    sumSnd, sampleCount, List.zip_cons_cons]
example : classify 2 (.oneD [1, 2]) = .mono := by simp [classify]

/-- One analysis record, the dict built by `analyze_audio` (success, lines
104-112) or by the handler in `run` (error, lines 49-57).  The success dict
stores the channel count and the numeric sample rate / duration (the source
formats them into display strings, `"44.1kHz"` / `"3.00秒"`; the formatting
is presentation only and the numeric values are kept here); the error dict
stores `"-"` in those three columns, modelled as `none`. -/
structure AnalysisResult where
  filename : String
  filepath : String
  audio_type : AudioType
  channels : Option Nat
  sample_rate : Option ℚ
  duration : Option ℚ
  error : Option String
  deriving DecidableEq

/-- Identity of one `AudioAnalysisWorker`: the file it analyzes, its index
in the submitted list and the batch size (constructor arguments, lines
32-38).  `filename` is `os.path.basename(file_path)` precomputed. -/
structure WorkerTask where
  filename : String
  filepath : String
  fileIndex : Nat
  totalFiles : Nat
  deriving DecidableEq

/-- Outcome of the decoding step (`librosa.load` + `soundfile` metadata,
lines 72-78): on success the channel count, sample rate, frame count
(`len(sf_file)`) and the decoded sample data; on failure the exception
message.  The decoder is an external library, so its outcome is an input
of the embedded worker. -/
inductive DecodeResult
  | ok (channels sampleRate frames : Nat) (y : DecodedSamples)
  | fail (msg : String)
  deriving DecidableEq

/-- The success dict returned by `analyze_audio` (lines 104-112):
`audio_type` from the classifier, the metadata fields populated,
`error = None`.  `duration = len(sf_file) / sf_file.samplerate`. -/
def mkSuccessResult (t : WorkerTask) (channels sampleRate frames : Nat)
    (y : DecodedSamples) : AnalysisResult :=
  { filename := t.filename
    filepath := t.filepath
    audio_type := classify channels y
    channels := some channels
    sample_rate := some (sampleRate : ℚ)
    duration := some ((frames : ℚ) / (sampleRate : ℚ))
    error := none }

/-- The error dict built in `run`'s exception handler (lines 49-57):
`audio_type` is the "分析错误" marker, the three metadata columns are `"-"`
(here `none`), and `error` carries `str(e)`. -/
def mkErrorResult (t : WorkerTask) (msg : String) : AnalysisResult :=
  { filename := t.filename
    filepath := t.filepath
    audio_type := .analysisError
    channels := none
    sample_rate := none
    duration := none
    error := some msg }

/-- Function `AudioAnalysisWorker.analyze_audio` (lines 68-114): decode, then
classify; any exception in the body is re-raised as
`Exception("分析失败: " + str(e))` (line 114), so the failure side carries
the prefixed message. -/
def analyze_audio (t : WorkerTask) (d : DecodeResult) :
    Except String AnalysisResult :=
  match d with
  | .ok channels sampleRate frames y =>
      .ok (mkSuccessResult t channels sampleRate frames y)
  | .fail msg => .error ("分析失败: " ++ msg)

/-- The signals one `run` call emits: at most one `result` payload and at
most one `progress` payload (the pair `(file_index + 1, total_files)`). -/
structure RunEmissions where
  result : Option AnalysisResult
  progress : Option (Nat × Nat)
  deriving DecidableEq

/-- Method `AudioAnalysisWorker.run` (lines 40-62).  The mutable `is_cancelled`
flag is read at three program points — the entry guard (line 41), the
exception handler's guard (line 48) and the progress guard (line 61) — so
the embedding takes the flag's value at each read as a parameter
(`cancelledAtEntry`, `cancelledAtCatch`, `cancelledAtProgress`; the flag is
only ever set, never cleared, so along one run these are monotone).
Cancelled at entry: return immediately, nothing emitted.  Otherwise the
analysis outcome is emitted unconditionally on success, while on failure
the error result is emitted only if the flag is still clear at the catch
guard; the progress pair is emitted only if the flag is still clear at the
progress guard. -/
def runWorker (cancelledAtEntry cancelledAtCatch cancelledAtProgress : Bool)
    (t : WorkerTask) (d : DecodeResult) : RunEmissions :=
  if cancelledAtEntry then { result := none, progress := none }
  else
    let emittedResult : Option AnalysisResult :=
      match analyze_audio t d with
      | .ok r => some r
      | .error msg =>
          if cancelledAtCatch then none else some (mkErrorResult t msg)
    { result := emittedResult
      progress :=
        if cancelledAtProgress then none
        else some (t.fileIndex + 1, t.totalFiles) }

/-- The per-batch mutable state of `AudioAnalyzerApp` touched by the
pipeline: the result list, the completed counter, the batch size, the
running flag and the progress-bar ratchet value (fields initialized in
`__init__` lines 136-146 and reset per batch in `analyze_audio_files`
lines 350-358). -/
structure BatchState where
  results : List AnalysisResult
  completed_tasks : Nat
  total_tasks : Nat
  is_analyzing : Bool
  current_progress : Nat
  deriving DecidableEq

/-- The fresh per-batch state installed by `analyze_audio_files` for `n`
submitted paths (lines 350-358): empty results, zero completed, running,
progress reset to zero. -/
def initBatch (n : Nat) : BatchState :=
  { results := []
    completed_tasks := 0
    total_tasks := n
    is_analyzing := true
    current_progress := 0 }

/-- Slot `AudioAnalyzerApp.handle_result` (lines 397-436), restricted to batch
state (the table repaint is presentation only): append the result, increment
`completed_tasks`, and when `completed_tasks >= total_tasks and
is_analyzing` run `analysis_finished`, which clears `is_analyzing`
(line 492).  The slot runs on the GUI thread, so consecutive deliveries are
serialized; one slot execution is one step of this function. -/
def handle_result (s : BatchState) (r : AnalysisResult) : BatchState :=
  let s1 : BatchState :=
    { s with
        results := s.results ++ [r]
        completed_tasks := s.completed_tasks + 1 }
  if s1.total_tasks ≤ s1.completed_tasks ∧ s1.is_analyzing then
    { s1 with is_analyzing := false }
  else s1

/-- Slot `AudioAnalyzerApp.update_progress` (lines 438-454): compute
`progress_percent = int(completed_files * 100 / total_files)` (for the
nonnegative values at hand Python's truncation is the floor, i.e. `Nat`
division) and store it only when it strictly exceeds the held value.  The
body runs under `progress_mutex`, so consecutive reports are serialized;
one locked execution is one step of this function. -/
def update_progress (s : BatchState) (completed_files total_files : Nat) :
    BatchState :=
  let progress_percent := completed_files * 100 / total_files
  if s.current_progress < progress_percent then
    { s with current_progress := progress_percent }
  else s

/-- A sequence of progress reports applied in their arrival order. -/
def runProgressReports (s : BatchState) (reports : List (Nat × Nat)) :
    BatchState :=
  reports.foldl (fun st r => update_progress st r.1 r.2) s

/-- What a call to the submission entry point returns to its caller.
`busySignalled` records whether the call raised or displayed any
busy/already-running error toward the caller: `analyze_audio_files` itself
never does — its already-running guard (line 347) is a bare `return`
(the warning dialogs live in the GUI callers `dropEvent`, `select_files`
and `select_folder`, which run before this function is ever invoked).
`started` lists the paths for which workers were submitted to the pool. -/
structure SubmitOutcome where
  state : BatchState
  busySignalled : Bool
  started : List String
  deriving DecidableEq

/-- Method `AudioAnalyzerApp.analyze_audio_files` (lines 342-395), restricted to
batch state: empty path list → bare return; already analyzing → bare
return (no error signalled, nothing queued); otherwise install a fresh
`BatchState` for the paths and submit one worker per path. -/
def analyze_audio_files (s : BatchState) (paths : List String) :
    SubmitOutcome :=
  if paths = [] then { state := s, busySignalled := false, started := [] }
  else if s.is_analyzing then
    { state := s, busySignalled := false, started := [] }
  else
    { state := initBatch paths.length
      busySignalled := false
      started := paths }

/-- The result payloads a batch of non-cancelled workers delivers: one
worker per task, each contributing its emitted result (if any). -/
def batchResults (tasks : List (WorkerTask × DecodeResult)) :
    List AnalysisResult :=
  tasks.filterMap fun td => (runWorker false false false td.1 td.2).result

/-- A concrete worker identity used by closed instantiations. -/
def sampleTask : WorkerTask :=
  { filename := "a.wav", filepath := "/tmp/a.wav", fileIndex := 0
    totalFiles := 1 }

/-- A concrete mid-batch running state (one of three tasks done). -/
def busyState : BatchState :=
  { results := []
    completed_tasks := 1
    total_tasks := 3
    is_analyzing := true
    current_progress := 33 }

/-! ## Theorems -/

/-- The square-root-free comparison used by `corrExceeds` agrees with the
real-valued Pearson-coefficient comparison, for any positive threshold. -/
theorem corrExceeds_iff_pearsonGT (a b : List ℚ) (t : ℚ) (ht : 0 < t) :
    corrExceeds a b t = true ↔ pearsonGT a b t := by
  simp only [corrExceeds, decide_eq_true_eq, pearsonGT]
  have htR : (0 : ℝ) < (t : ℝ) := by exact_mod_cast ht
  constructor
  · rintro ⟨hva, hvb, hcv, hlt⟩
    refine ⟨hva, hvb, ?_⟩
    have hvaR : (0 : ℝ) < (varFstN a b : ℝ) := by exact_mod_cast hva
    have hvbR : (0 : ℝ) < (varSndN a b : ℝ) := by exact_mod_cast hvb
    have hcvR : (0 : ℝ) < (covN a b : ℝ) := by exact_mod_cast hcv
    have hltR : (t : ℝ) ^ 2 * ((varFstN a b : ℝ) * (varSndN a b : ℝ))
        < (covN a b : ℝ) ^ 2 := by exact_mod_cast hlt
    have hprod : (0 : ℝ) < (varFstN a b : ℝ) * (varSndN a b : ℝ) :=
      mul_pos hvaR hvbR
    have hs : (0 : ℝ) < Real.sqrt ((varFstN a b : ℝ) * (varSndN a b : ℝ)) :=
      Real.sqrt_pos.mpr hprod
    have hsq : Real.sqrt ((varFstN a b : ℝ) * (varSndN a b : ℝ)) ^ 2
        = (varFstN a b : ℝ) * (varSndN a b : ℝ) := Real.sq_sqrt hprod.le
    rw [lt_div_iff₀ hs]
    nlinarith [hs, hsq, hcvR, htR, hltR, mul_pos htR hs]
  · rintro ⟨hva, hvb, hgt⟩
    have hvaR : (0 : ℝ) < (varFstN a b : ℝ) := by exact_mod_cast hva
    have hvbR : (0 : ℝ) < (varSndN a b : ℝ) := by exact_mod_cast hvb
    have hprod : (0 : ℝ) < (varFstN a b : ℝ) * (varSndN a b : ℝ) :=
      mul_pos hvaR hvbR
    have hs : (0 : ℝ) < Real.sqrt ((varFstN a b : ℝ) * (varSndN a b : ℝ)) :=
      Real.sqrt_pos.mpr hprod
    have hsq : Real.sqrt ((varFstN a b : ℝ) * (varSndN a b : ℝ)) ^ 2
        = (varFstN a b : ℝ) * (varSndN a b : ℝ) := Real.sq_sqrt hprod.le
    rw [lt_div_iff₀ hs] at hgt
    have hts : (0 : ℝ) < (t : ℝ) * Real.sqrt ((varFstN a b : ℝ) * (varSndN a b : ℝ)) :=
      mul_pos htR hs
    have hcvR : (0 : ℝ) < (covN a b : ℝ) := hts.trans hgt
    refine ⟨hva, hvb, by exact_mod_cast hcvR, ?_⟩
    have : (t : ℝ) ^ 2 * ((varFstN a b : ℝ) * (varSndN a b : ℝ))
        < (covN a b : ℝ) ^ 2 := by nlinarith [hgt, hsq, hts, hcvR]
    exact_mod_cast this

/-- The classifier never produces the error marker: "分析错误" is set only by
the exception handler in `run`, never by `analyze_audio`'s branch. -/
theorem classify_ne_analysisError (c : Nat) (y : DecodedSamples) :
    classify c y ≠ .analysisError := by
  cases y <;> simp only [classify] <;> split_ifs <;> simp

/-- C1: for every channel count `c` and sample data `y`, `classify` returns
mono when `c = 1`; for `c = 2` with two channel buffers available, fake
stereo when the Pearson correlation exceeds 0.98 and stereo otherwise;
5.1 surround when `c = 6`; 7.1 surround when `c = 8`; and the n-channel
label for every other count. -/
theorem classify_matches_spec (c : Nat) (y : DecodedSamples) :
    (c = 1 → classify c y = .mono) ∧
    (c = 2 → ∀ a b : List ℚ, y = .twoD a b →
      (pearsonGT a b (0.98 : ℚ) → classify c y = .fakeStereo) ∧
      (¬ pearsonGT a b (0.98 : ℚ) → classify c y = .stereo)) ∧
    (c = 6 → classify c y = .surround51) ∧
    (c = 8 → classify c y = .surround71) ∧
    (c ≠ 1 → c ≠ 2 → c ≠ 6 → c ≠ 8 → classify c y = .nChannel c) := by
  refine ⟨?_, ?_, ?_, ?_, ?_⟩
  · rintro rfl; simp [classify]
  · rintro rfl a b rfl
    have hiff := corrExceeds_iff_pearsonGT a b (0.98 : ℚ) (by norm_num)
    constructor
    · intro hp
      have hT : corrExceeds a b (0.98 : ℚ) = true := hiff.mpr hp
      simp [classify, hT]
    · intro hp
      have hF : corrExceeds a b (0.98 : ℚ) = false := by
        cases hE : corrExceeds a b (0.98 : ℚ)
        · rfl
        · exact absurd (hiff.mp hE) hp
      simp [classify, hF]
  · rintro rfl; simp [classify]
  · rintro rfl; simp [classify]
  · intro h1 h2 h6 h8; simp [classify, h1, h2, h6, h8]

/-- C1 witness: the generic branch at the concrete count 5. -/
theorem classify_matches_spec_w :
    classify 5 (DecodedSamples.oneD []) = AudioType.nChannel 5 :=
  (classify_matches_spec 5 (DecodedSamples.oneD [])).2.2.2.2
    (by decide) (by decide) (by decide) (by decide)

/-- C5: when the Pearson correlation of a two-channel input is undefined
(a zero-variance channel, e.g. constant or all-zero samples, makes
`np.corrcoef` return NaN), the classifier returns stereo; the embedded
comparison is total, so no exception or NaN is propagated. -/
theorem nan_correlation_stereo (a b : List ℚ)
    (h : varFstN a b = 0 ∨ varSndN a b = 0) :
    classify 2 (.twoD a b) = .stereo := by
  have hF : corrExceeds a b (0.98 : ℚ) = false := by
    simp only [corrExceeds, decide_eq_false_iff_not]
    rintro ⟨hva, hvb, -, -⟩
    rcases h with h | h
    · rw [h] at hva; exact lt_irrefl 0 hva
    · rw [h] at hvb; exact lt_irrefl 0 hvb
  simp [classify, hF]

/-- C5 witness: two all-zero channels are classified as stereo. -/
theorem nan_correlation_stereo_w :
    classify 2 (DecodedSamples.twoD [0, 0, 0] [0, 0, 0]) = AudioType.stereo :=
  nan_correlation_stereo [0, 0, 0] [0, 0, 0]
    (Or.inl (by norm_num [varFstN, sumFst, sampleCount, List.zip_cons_cons]))

/-- C9: a two-channel file whose decoded data is not two-dimensional (no
per-channel buffers available) is classified mono by the defensive
`else` branch at line 95-96. -/
theorem two_channel_no_buffers_mono (samples : List ℚ) :
    classify 2 (.oneD samples) = .mono := by
  simp [classify]

/-- One ratchet step never lowers the stored progress value. -/
theorem update_progress_le (s : BatchState) (c t : Nat) :
    s.current_progress ≤ (update_progress s c t).current_progress := by
  simp only [update_progress]
  split
  · rename_i h; exact h.le
  · exact le_refl _

/-- C2: the aggregator computes `percent = floor(completed * 100 / total)`
and replaces the stored value exactly when the new percent is strictly
greater; consequently, across any sequence of reports in any arrival
order, the stored value never decreases. -/
theorem progress_ratchet_monotone :
    (∀ (s : BatchState) (c t : Nat), 1 ≤ c → c ≤ t →
      (s.current_progress < c * 100 / t →
        (update_progress s c t).current_progress = c * 100 / t) ∧
      (c * 100 / t ≤ s.current_progress →
        (update_progress s c t).current_progress = s.current_progress)) ∧
    (∀ (s : BatchState) (reports : List (Nat × Nat)),
      s.current_progress ≤ (runProgressReports s reports).current_progress) := by
  constructor
  · intro s c t hc hct
    constructor
    · intro h
      simp only [update_progress]
      rw [if_pos h]
    · intro h
      simp only [update_progress]
      rw [if_neg (not_lt.mpr h)]
  · intro s reports
    induction reports generalizing s with
    | nil => exact le_refl _
    | cons r rs ih =>
        calc s.current_progress
            ≤ (update_progress s r.1 r.2).current_progress :=
              update_progress_le s r.1 r.2
          _ ≤ (runProgressReports (update_progress s r.1 r.2) rs).current_progress :=
              ih (update_progress s r.1 r.2)

/-- C2 witness: one report of 1/4 raises the fresh state's progress to 25. -/
theorem progress_ratchet_monotone_w :
    (update_progress (initBatch 4) 1 4).current_progress = 1 * 100 / 4 :=
  (progress_ratchet_monotone.1 (initBatch 4) 1 4 (by decide) (by decide)).1
    (by decide)

/-- One collector step appends exactly the delivered result. -/
theorem handle_result_results (s : BatchState) (r : AnalysisResult) :
    (handle_result s r).results = s.results ++ [r] := by
  simp only [handle_result]
  split <;> rfl

/-- One collector step increments the completed counter by one. -/
theorem handle_result_completed (s : BatchState) (r : AnalysisResult) :
    (handle_result s r).completed_tasks = s.completed_tasks + 1 := by
  simp only [handle_result]
  split <;> rfl

/-- The collector never changes the batch size. -/
theorem handle_result_total (s : BatchState) (r : AnalysisResult) :
    (handle_result s r).total_tasks = s.total_tasks := by
  simp only [handle_result]
  split <;> rfl

/-- If the batch is still running after a collector step, it was running
before and the incremented counter is still short of the batch size. -/
theorem handle_result_analyzing (s : BatchState) (r : AnalysisResult)
    (h : (handle_result s r).is_analyzing = true) :
    s.is_analyzing = true ∧ s.completed_tasks + 1 < s.total_tasks := by
  simp only [handle_result] at h
  split at h
  · simp at h
  · rename_i hcond
    refine ⟨h, ?_⟩
    by_contra hge
    push_neg at hge
    exact hcond ⟨hge, h⟩

/-- Counting through a fold of collector steps: each delivered result adds
one to the result list and one to the counter, and the batch size is
unchanged. -/
theorem foldl_handle_result_counts (rs : List AnalysisResult) (s : BatchState) :
    (rs.foldl handle_result s).completed_tasks = s.completed_tasks + rs.length ∧
    (rs.foldl handle_result s).results.length = s.results.length + rs.length ∧
    (rs.foldl handle_result s).total_tasks = s.total_tasks := by
  induction rs generalizing s with
  | nil => simp
  | cons r rs ih =>
      obtain ⟨h1, h2, h3⟩ := ih (handle_result s r)
      refine ⟨?_, ?_, ?_⟩
      · rw [List.foldl_cons, h1, handle_result_completed, List.length_cons]
        omega
      · have hstep : (handle_result s r).results.length = s.results.length + 1 := by
          rw [handle_result_results, List.length_append]
          simp
        rw [List.foldl_cons, h2, hstep, List.length_cons]
        omega
      · rw [List.foldl_cons, h3, handle_result_total]

/-- The running-implies-incomplete invariant is preserved by any fold of
collector steps. -/
theorem foldl_handle_result_running (rs : List AnalysisResult) (s : BatchState)
    (hP : s.is_analyzing = true → s.completed_tasks < s.total_tasks)
    (h : (rs.foldl handle_result s).is_analyzing = true) :
    (rs.foldl handle_result s).completed_tasks
      < (rs.foldl handle_result s).total_tasks := by
  induction rs generalizing s with
  | nil => exact hP h
  | cons r rs ih =>
      refine ih (handle_result s r) ?_ h
      intro hrun
      obtain ⟨-, hlt⟩ := handle_result_analyzing s r hrun
      rw [handle_result_completed, handle_result_total]
      exact hlt

/-- Delivering exactly `n` results to a fresh batch of `n > 0` tasks ends
with `len(results) = completed = n` and the running flag cleared. -/
theorem foldl_initBatch_finished (n : Nat) (rs : List AnalysisResult)
    (hn : 0 < n) (hlen : rs.length = n) :
    (rs.foldl handle_result (initBatch n)).results.length
        = (rs.foldl handle_result (initBatch n)).completed_tasks ∧
    (rs.foldl handle_result (initBatch n)).completed_tasks = n ∧
    (rs.foldl handle_result (initBatch n)).is_analyzing = false := by
  obtain ⟨h1, h2, h3⟩ := foldl_handle_result_counts rs (initBatch n)
  have hc : (rs.foldl handle_result (initBatch n)).completed_tasks = n := by
    rw [h1, hlen]; simp [initBatch]
  have hr : (rs.foldl handle_result (initBatch n)).results.length = n := by
    rw [h2, hlen]; simp [initBatch]
  refine ⟨by rw [hc, hr], hc, ?_⟩
  cases hE : (rs.foldl handle_result (initBatch n)).is_analyzing with
  | false => rfl
  | true =>
      exfalso
      have hlt := foldl_handle_result_running rs (initBatch n)
        (fun _ => hn) hE
      rw [hc, h3] at hlt
      exact lt_irrefl n hlt

/-- C3: appending a result and incrementing the counter form one collector
step, so `len(results) = completed_count` is preserved at every observation
point; and a fresh batch of `n > 0` tasks that receives all `n` results
reaches the finished state with both equal to `total_tasks`. -/
theorem collector_invariant :
    (∀ (s : BatchState) (r : AnalysisResult),
      s.results.length = s.completed_tasks →
      (handle_result s r).results.length = (handle_result s r).completed_tasks) ∧
    (∀ (n : Nat) (rs : List AnalysisResult), 0 < n → rs.length = n →
      (rs.foldl handle_result (initBatch n)).results.length
          = (rs.foldl handle_result (initBatch n)).completed_tasks ∧
      (rs.foldl handle_result (initBatch n)).completed_tasks = n ∧
      (rs.foldl handle_result (initBatch n)).is_analyzing = false) := by
  constructor
  · intro s r h
    rw [handle_result_results, handle_result_completed, List.length_append, h]
    simp
  · intro n rs hn hlen
    exact foldl_initBatch_finished n rs hn hlen

/-- C3 witness: a one-task batch receiving its single result finishes with
one result and counter one. -/
theorem collector_invariant_w :
    ([mkErrorResult sampleTask ("e")].foldl handle_result (initBatch 1)).results.length
        = ([mkErrorResult sampleTask ("e")].foldl handle_result (initBatch 1)).completed_tasks ∧
    ([mkErrorResult sampleTask ("e")].foldl handle_result (initBatch 1)).completed_tasks = 1 ∧
    ([mkErrorResult sampleTask ("e")].foldl handle_result (initBatch 1)).is_analyzing = false :=
  collector_invariant.2 1 [mkErrorResult sampleTask ("e")] (by decide) rfl

/-- A non-cancelled worker always emits exactly one result payload,
whether its analysis succeeded or failed. -/
theorem runWorker_result_isSome (t : WorkerTask) (d : DecodeResult) :
    ((runWorker false false false t d).result).isSome = true := by
  cases d <;> simp [runWorker, analyze_audio]

/-- A batch of non-cancelled workers delivers one result per task. -/
theorem batchResults_length (tasks : List (WorkerTask × DecodeResult)) :
    (batchResults tasks).length = tasks.length := by
  induction tasks with
  | nil => rfl
  | cons td tl ih =>
      simp only [batchResults, List.filterMap_cons] at ih ⊢
      cases hE : (runWorker false false false td.1 td.2).result with
      | none =>
          have hS := runWorker_result_isSome td.1 td.2
          rw [hE] at hS
          simp at hS
      | some r =>
          simp [ih]

/-- C4: a task whose decode or classification raises produces a result
whose `error` field carries the re-raised "分析失败"-prefixed message and
whose `audio_type` is the "分析错误" marker; and since every non-cancelled
worker — failed or not — still delivers exactly one result, a batch
containing failures still reaches the finished state with all counters at
the batch size. -/
theorem task_failure_isolated :
    (∀ (t : WorkerTask) (msg : String),
      (runWorker false false false t (.fail msg)).result
          = some (mkErrorResult t ("分析失败: " ++ msg)) ∧
      (mkErrorResult t ("分析失败: " ++ msg)).error = some ("分析失败: " ++ msg) ∧
      (mkErrorResult t ("分析失败: " ++ msg)).audio_type = .analysisError) ∧
    (∀ tasks : List (WorkerTask × DecodeResult), 0 < tasks.length →
      ((batchResults tasks).foldl handle_result
          (initBatch tasks.length)).completed_tasks = tasks.length ∧
      ((batchResults tasks).foldl handle_result
          (initBatch tasks.length)).is_analyzing = false) := by
  constructor
  · intro t msg
    refine ⟨?_, rfl, rfl⟩
    simp [runWorker, analyze_audio]
  · intro tasks hlen
    obtain ⟨-, h2, h3⟩ := foldl_initBatch_finished tasks.length
      (batchResults tasks) hlen (batchResults_length tasks)
    exact ⟨h2, h3⟩

/-- C4 witness: a batch of one corrupt file and one valid file finishes
with both results collected. -/
theorem task_failure_isolated_w :
    ((batchResults
        [(sampleTask, DecodeResult.fail ("boom")),
          (sampleTask, DecodeResult.ok 1 44100 44100 (DecodedSamples.oneD []))]).foldl
        handle_result (initBatch 2)).completed_tasks = 2 ∧
    ((batchResults
        [(sampleTask, DecodeResult.fail ("boom")),
          (sampleTask, DecodeResult.ok 1 44100 44100 (DecodedSamples.oneD []))]).foldl
        handle_result (initBatch 2)).is_analyzing = false :=
  task_failure_isolated.2
    [(sampleTask, DecodeResult.fail ("boom")),
      (sampleTask, DecodeResult.ok 1 44100 44100 (DecodedSamples.oneD []))]
    (by decide)

/-- C6: a worker whose cancellation flag is already set at the entry check
(line 41) returns immediately — no work, no result payload, no progress
payload; a worker past the entry check whose analysis completes emits its
result unconditionally (line 46), regardless of the flag's later values. -/
theorem cancellation_entry_and_post_decode :
    (∀ (c1 c2 : Bool) (t : WorkerTask) (d : DecodeResult),
      runWorker true c1 c2 t d = { result := none, progress := none }) ∧
    (∀ (c1 c2 : Bool) (t : WorkerTask) (d : DecodeResult) (r : AnalysisResult),
      analyze_audio t d = .ok r →
      (runWorker false c1 c2 t d).result = some r) := by
  constructor
  · intro c1 c2 t d
    simp [runWorker]
  · intro c1 c2 t d r h
    simp [runWorker, h]

/-- C6 witness: a worker cancelled after its entry check still emits the
successful result of its completed analysis. -/
theorem cancellation_entry_and_post_decode_w :
    (runWorker false true true sampleTask
        (DecodeResult.ok 1 44100 44100 (DecodedSamples.oneD []))).result
      = some (mkSuccessResult sampleTask 1 44100 44100 (DecodedSamples.oneD [])) :=
  cancellation_entry_and_post_decode.2 true true sampleTask
    (DecodeResult.ok 1 44100 44100 (DecodedSamples.oneD []))
    (mkSuccessResult sampleTask 1 44100 44100 (DecodedSamples.oneD [])) rfl

/-- C7 counterexample: submitting a new path list while `busyState` is
running leaves the batch state untouched and queues nothing, but signals
no busy/already-running error to the caller — the guard at line 347 is a
bare `return`, contradicting the claim that the rejection carries an
error signal. -/
theorem busy_submission_signals_nothing :
    (analyze_audio_files busyState ["b.wav"]).busySignalled = false ∧
    (analyze_audio_files busyState ["b.wav"]).state = busyState ∧
    (analyze_audio_files busyState ["b.wav"]).started = [] := by
  refine ⟨rfl, rfl, rfl⟩

/-- C7 amended: a submission while a batch is running is rejected
synchronously — the existing batch state is unchanged and no new paths
are queued — but silently: the submission function itself signals no
busy error (the busy warning dialogs are raised by the GUI entry points
before it is invoked). -/
theorem busy_submission_rejected_silently (s : BatchState)
    (paths : List String) (h : s.is_analyzing = true) :
    analyze_audio_files s paths
      = { state := s, busySignalled := false, started := [] } := by
  simp [analyze_audio_files, h]

/-- C7 witness: the amended rejection at the concrete running state. -/
theorem busy_submission_rejected_silently_w :
    analyze_audio_files busyState ["c.wav"]
      = { state := busyState, busySignalled := false, started := [] } :=
  busy_submission_rejected_silently busyState ["c.wav"] rfl

/-- C8: every result a worker ever emits has exactly one side populated:
either a successful classification (no error, a genuine audio type, and
the channel / sample-rate / duration fields present) or a failure (an
error message, the "分析错误" marker, and the metadata columns blank);
`error` is `None` exactly when `audio_type` is a genuine classification. -/
theorem result_fields_exclusive (c0 c1 c2 : Bool) (t : WorkerTask)
    (d : DecodeResult) (r : AnalysisResult)
    (h : (runWorker c0 c1 c2 t d).result = some r) :
    ((r.error = none ∧ r.audio_type ≠ .analysisError ∧
        r.channels.isSome = true ∧ r.sample_rate.isSome = true ∧
        r.duration.isSome = true) ∨
      ((∃ m, r.error = some m) ∧ r.audio_type = .analysisError ∧
        r.channels = none ∧ r.sample_rate = none ∧ r.duration = none)) ∧
    (r.error = none ↔ r.audio_type ≠ .analysisError) := by
  cases c0 with
  | true => simp [runWorker] at h
  | false =>
    cases d with
    | ok ch sr fr y =>
        simp only [runWorker, analyze_audio, if_false, Bool.false_eq_true,
          Option.some.injEq] at h
        subst h
        refine ⟨Or.inl ⟨rfl, classify_ne_analysisError ch y, rfl, rfl, rfl⟩, ?_⟩
        constructor
        · intro hnone
          exact classify_ne_analysisError ch y
        · intro hne
          rfl
    | fail msg =>
        cases c1 with
        | true => simp [runWorker, analyze_audio] at h
        | false =>
            simp only [runWorker, analyze_audio, if_false, Bool.false_eq_true,
              Option.some.injEq] at h
            subst h
            refine ⟨Or.inr ⟨⟨"分析失败: " ++ msg, rfl⟩, rfl, rfl, rfl, rfl⟩, ?_⟩
            constructor
            · intro hnone
              exact absurd hnone (by simp [mkErrorResult])
            · intro hne
              exact absurd rfl hne

/-- C8 witness: the exclusivity at a concrete failed worker. -/
theorem result_fields_exclusive_w :
    ((mkErrorResult sampleTask ("分析失败: " ++ "x")).error = none ↔
      (mkErrorResult sampleTask ("分析失败: " ++ "x")).audio_type
        ≠ AudioType.analysisError) :=
  (result_fields_exclusive false false false sampleTask
    (DecodeResult.fail ("x"))
    (mkErrorResult sampleTask ("分析失败: " ++ "x")) rfl).2

/-- C10: a worker whose flag becomes set after the entry check (so it is
set both at the catch guard and at the progress guard): on a successful
analysis the result payload is still emitted but the progress payload is
suppressed; on a failed analysis both the error result and the progress
payload are suppressed — a cancelled batch can therefore hold results
whose progress event was never reported. -/
theorem midrun_cancellation_emissions (t : WorkerTask) (d : DecodeResult) :
    (∀ r : AnalysisResult, analyze_audio t d = .ok r →
      runWorker false true true t d = { result := some r, progress := none }) ∧
    (∀ msg : String, analyze_audio t d = .error msg →
      runWorker false true true t d = { result := none, progress := none }) := by
  constructor
  · intro r h
    simp [runWorker, h]
  · intro msg h
    simp [runWorker, h]

/-- C10 witness: the success case at a concrete decode outcome. -/
theorem midrun_cancellation_emissions_w :
    runWorker false true true sampleTask
        (DecodeResult.ok 2 48000 96000 (DecodedSamples.oneD []))
      = { result := some (mkSuccessResult sampleTask 2 48000 96000
            (DecodedSamples.oneD [])),
          progress := none } :=
  (midrun_cancellation_emissions sampleTask
    (DecodeResult.ok 2 48000 96000 (DecodedSamples.oneD []))).1
    (mkSuccessResult sampleTask 2 48000 96000 (DecodedSamples.oneD [])) rfl

end AudioAnalyzer
